import Mathlib

/-!
Shallow embedding of the jewelry-design generator
(`python_jewelry_design_gen`): the data model (`models/jewelry_design.py`),
the remote-job polling loop (`generators/meshy_api.py`,
`wait_for_task_completion`), and the orchestration layer
(`generators/meshy_generator.py`, `generate_design` / `generate_batch`).

Modelling conventions:
* Python `str` enums become inductive types with a `str` projection giving
  the enum value and an `ofStr` partial inverse (the `Enum(...)` call used
  by `from_dict`, which raises on unknown strings, becomes `Option`).
* `datetime` values are modelled by their ISO string: `isoformat` /
  `fromisoformat` round-trip exactly on strings produced by `isoformat`,
  so serialization treats `created_at` as an opaque string.
* Python floats that are only stored and passed through unchanged
  (`dimensions`, `weight`, `material_cost`, the polling clock) are
  modelled as `ℚ`; no float arithmetic from the source is modelled.
* Python dicts built by comprehension are modelled as insertion-ordered
  association lists with last-write-wins key update (`pyDict`).
* Side effects (directory creation, metadata persistence, HTTP calls) are
  passed in explicitly as `Except`-valued effect records, and exceptions
  become an explicit `PyError`/outcome type; the sequence of observed
  remote-job snapshots is passed in as a list, one entry per poll.
* Python integer `//` on the (nonnegative-range) progress values is `/`
  on `Int` (both are floor division for the positive divisor 2).
-/

/-- `Material` enum from `models/jewelry_design.py`. -/
inductive Material where
  | gold
  | silver
  | stainless_steel
  | gold_plated
  | silver_plated
  | rose_gold
  | white_gold
  | platinum
  | brass
deriving DecidableEq, Repr

/-- `str(material)`: the enum's string value (`Material.__str__`). -/
def Material.str : Material → String
  | .gold => "gold"
  | .silver => "silver"
  | .stainless_steel => "stainless_steel"
  | .gold_plated => "gold_plated"
  | .silver_plated => "silver_plated"
  | .rose_gold => "rose_gold"
  | .white_gold => "white_gold"
  | .platinum => "platinum"
  | .brass => "brass"

/-- `Material(s)`: enum lookup by value; `none` models the `ValueError`
raised on an unknown string. -/
def Material.ofStr (s : String) : Option Material :=
  if s = "gold" then some .gold
  else if s = "silver" then some .silver
  else if s = "stainless_steel" then some .stainless_steel
  else if s = "gold_plated" then some .gold_plated
  else if s = "silver_plated" then some .silver_plated
  else if s = "rose_gold" then some .rose_gold
  else if s = "white_gold" then some .white_gold
  else if s = "platinum" then some .platinum
  else if s = "brass" then some .brass
  else none

/-- `JewelryType` enum from `models/jewelry_design.py`. -/
inductive JewelryType where
  | chain
  | ring
  | bracelet
  | necklace
  | earring
  | pendant
deriving DecidableEq, Repr

/-- `str(jewelry_type)`: the enum's string value. -/
def JewelryType.str : JewelryType → String
  | .chain => "chain"
  | .ring => "ring"
  | .bracelet => "bracelet"
  | .necklace => "necklace"
  | .earring => "earring"
  | .pendant => "pendant"

/-- `JewelryType(s)`: enum lookup by value. -/
def JewelryType.ofStr (s : String) : Option JewelryType :=
  if s = "chain" then some .chain
  else if s = "ring" then some .ring
  else if s = "bracelet" then some .bracelet
  else if s = "necklace" then some .necklace
  else if s = "earring" then some .earring
  else if s = "pendant" then some .pendant
  else none

/-- `ChainStyle` enum from `models/jewelry_design.py`. -/
inductive ChainStyle where
  | cuban
  | figaro
  | rope
  | cable
  | snake
  | box
  | herringbone
  | wheat
  | ball
deriving DecidableEq, Repr

/-- `str(chain_style)`: the enum's string value. -/
def ChainStyle.str : ChainStyle → String
  | .cuban => "cuban"
  | .figaro => "figaro"
  | .rope => "rope"
  | .cable => "cable"
  | .snake => "snake"
  | .box => "box"
  | .herringbone => "herringbone"
  | .wheat => "wheat"
  | .ball => "ball"

/-- `ChainStyle(s)`: enum lookup by value. -/
def ChainStyle.ofStr (s : String) : Option ChainStyle :=
  if s = "cuban" then some .cuban
  else if s = "figaro" then some .figaro
  else if s = "rope" then some .rope
  else if s = "cable" then some .cable
  else if s = "snake" then some .snake
  else if s = "box" then some .box
  else if s = "herringbone" then some .herringbone
  else if s = "wheat" then some .wheat
  else if s = "ball" then some .ball
  else none

/-- ASCII lowercasing of a single character (what Python's casing
operations do on the ASCII-only strings this code base produces). -/
def asciiLow (c : Char) : Char :=
  if 'A' ≤ c ∧ c ≤ 'Z' then Char.ofNat (c.toNat + 32) else c

/-- ASCII uppercasing of a single character. -/
def asciiUp (c : Char) : Char :=
  if 'a' ≤ c ∧ c ≤ 'z' then Char.ofNat (c.toNat - 32) else c

/-- Character-list worker for Python's `str.title()`: a letter is
uppercased when the previous character is not alphabetic, lowercased
otherwise. The `Bool` argument records whether the previous character
was alphabetic. -/
def titleChars : Bool → List Char → List Char
  | _, [] => []
  | prevAlpha, c :: cs =>
    (if prevAlpha then asciiLow c else asciiUp c) :: titleChars c.isAlpha cs

/-- Python's `str.title()` (on the ASCII strings used here). -/
def pyTitle (s : String) : String := ⟨titleChars false s.data⟩

/-- `JewelryDesign` dataclass from `models/jewelry_design.py`, with the
dataclass field defaults. `id` and `created_at` have no usable default
here (`uuid4()` / `datetime.now()` are nondeterministic), so model runs
supply them explicitly where they matter. -/
structure JewelryDesign where
  id : String := ""
  name : String := ""
  description : String := ""
  jewelry_type : JewelryType := .chain
  material : Material := .gold
  chain_style : Option ChainStyle := none
  dimensions : List (String × ℚ) := []
  created_at : String := ""
  batch_id : Option String := none
  tags : List String := []
  model_urls : List (String × String) := []
  thumbnail_url : Option String := none
  texture_urls : List (List (String × String)) := []
  weight : Option ℚ := none
  material_cost : Option ℚ := none
  manufacturing_notes : String := ""
deriving DecidableEq, Repr

/-- `JewelryDesign.__post_init__`: defaults `chain_style` to `cuban`
when the type is `chain` and no (truthy) style is present. -/
def postInit (d : JewelryDesign) : JewelryDesign :=
  if d.jewelry_type = .chain ∧ d.chain_style = none then
    { d with chain_style := some .cuban }
  else d

/-- Constructing a `JewelryDesign` (the dataclass constructor always runs
`__post_init__`). -/
def JewelryDesign.create (d : JewelryDesign) : JewelryDesign := postInit d

/-- `JewelryDesign.display_name`. -/
def JewelryDesign.display_name (d : JewelryDesign) : String :=
  if d.name ≠ "" then d.name
  else
    pyTitle
      ((match d.chain_style with
        | some c => c.str ++ " "
        | none => "") ++ d.material.str ++ " " ++ d.jewelry_type.str)

/-- The dictionary produced by `JewelryDesign.to_dict` / consumed by
`JewelryDesign.from_dict`, with enum fields as strings. -/
structure DesignDict where
  id : String
  name : String
  description : String
  jewelry_type : String
  material : String
  chain_style : Option String
  dimensions : List (String × ℚ)
  created_at : String
  batch_id : Option String
  tags : List String
  model_urls : List (String × String)
  thumbnail_url : Option String
  texture_urls : List (List (String × String))
  weight : Option ℚ
  material_cost : Option ℚ
  manufacturing_notes : String
deriving DecidableEq, Repr

/-- `JewelryDesign.to_dict`. `'name'` serializes as
`self.name or self.display_name` (Python falsy = empty string). -/
def JewelryDesign.to_dict (d : JewelryDesign) : DesignDict where
  id := d.id
  name := if d.name ≠ "" then d.name else d.display_name
  description := d.description
  jewelry_type := d.jewelry_type.str
  material := d.material.str
  chain_style := d.chain_style.map ChainStyle.str
  dimensions := d.dimensions
  created_at := d.created_at
  batch_id := d.batch_id
  tags := d.tags
  model_urls := d.model_urls
  thumbnail_url := d.thumbnail_url
  texture_urls := d.texture_urls
  weight := d.weight
  material_cost := d.material_cost
  manufacturing_notes := d.manufacturing_notes

/-- The `chain_style` conversion inside `from_dict`: a present string is
parsed with `ChainStyle(...)` (which can fail), an absent one stays
absent. -/
def parseChainStyle : Option String → Option (Option ChainStyle)
  | none => some none
  | some s => (ChainStyle.ofStr s).map some

/-- `JewelryDesign.from_dict`: converts the string enum fields back and
rebuilds the dataclass (running `__post_init__`); `none` models the
`ValueError` a bad enum string raises. -/
def JewelryDesign.from_dict (data : DesignDict) : Option JewelryDesign := do
  let jt ← JewelryType.ofStr data.jewelry_type
  let m ← Material.ofStr data.material
  let cs ← parseChainStyle data.chain_style
  pure (JewelryDesign.create
    { id := data.id
      name := data.name
      description := data.description
      jewelry_type := jt
      material := m
      chain_style := cs
      dimensions := data.dimensions
      created_at := data.created_at
      batch_id := data.batch_id
      tags := data.tags
      model_urls := data.model_urls
      thumbnail_url := data.thumbnail_url
      texture_urls := data.texture_urls
      weight := data.weight
      material_cost := data.material_cost
      manufacturing_notes := data.manufacturing_notes })

lemma material_ofStr_str (m : Material) : Material.ofStr m.str = some m := by
  cases m <;> rfl

lemma jewelryType_ofStr_str (j : JewelryType) :
    JewelryType.ofStr j.str = some j := by
  cases j <;> rfl

lemma chainStyle_ofStr_str (c : ChainStyle) :
    ChainStyle.ofStr c.str = some c := by
  cases c <;> rfl

lemma titleChars_length (b : Bool) (l : List Char) :
    (titleChars b l).length = l.length := by
  induction l generalizing b with
  | nil => rfl
  | cons c cs ih => simp [titleChars, ih]

lemma pyTitle_ne_empty (s : String) (h : s.data ≠ []) : pyTitle s ≠ "" := by
  intro hcontra
  apply h
  have hd : titleChars false s.data = [] := congrArg String.data hcontra
  have hlen := titleChars_length false s.data
  rw [hd] at hlen
  exact List.length_eq_zero.mp (by simpa using hlen.symm)

lemma jtype_str_data_ne_nil (j : JewelryType) : j.str.data ≠ [] := by
  cases j <;> decide

lemma display_name_ne_empty (d : JewelryDesign) : d.display_name ≠ "" := by
  unfold JewelryDesign.display_name
  by_cases h : d.name = ""
  · rw [if_neg (not_not_intro h)]
    apply pyTitle_ne_empty
    rw [String.data_append]
    intro hcontra
    exact jtype_str_data_ne_nil d.jewelry_type (List.append_eq_nil.mp hcontra).2
  · rw [if_pos h]
    exact h

lemma postInit_eq_self (d : JewelryDesign)
    (h : d.jewelry_type = .chain → d.chain_style ≠ none) :
    postInit d = d := by
  unfold postInit
  rw [if_neg]
  rintro ⟨h1, h2⟩
  exact h h1 h2

lemma from_dict_to_dict (x : JewelryDesign) :
    JewelryDesign.from_dict x.to_dict =
      some (JewelryDesign.create { x with name := x.to_dict.name }) := by
  unfold JewelryDesign.from_dict
  rw [show x.to_dict.jewelry_type = x.jewelry_type.str from rfl,
    show x.to_dict.material = x.material.str from rfl,
    jewelryType_ofStr_str, material_ofStr_str]
  have h3 : parseChainStyle x.to_dict.chain_style = some x.chain_style := by
    cases hcs : x.chain_style with
    | none => simp [JewelryDesign.to_dict, parseChainStyle, hcs]
    | some c =>
      simp [JewelryDesign.to_dict, parseChainStyle, hcs, chainStyle_ofStr_str]
  rw [h3]
  rfl

lemma to_dict_name_update (x : JewelryDesign) (n : String) (hn : n ≠ "") :
    ({ x with name := n } : JewelryDesign).to_dict =
      { x.to_dict with name := n } := by
  unfold JewelryDesign.to_dict
  simp [hn]

/-- C6: for every construction of a `JewelryDesign` without an explicit
chain style, the constructed record has `chain_style = cuban` when
`jewelry_type = chain`, and `chain_style = none` for every other jewelry
type. -/
theorem c6_chain_style_default (d : JewelryDesign) :
    (JewelryDesign.create { d with chain_style := none }).chain_style =
      if d.jewelry_type = .chain then some ChainStyle.cuban else none := by
  unfold JewelryDesign.create postInit
  by_cases h : d.jewelry_type = .chain <;> simp [h]

/-- C7: serializing, deserializing, and serializing a Design Record again
yields the same dictionary as serializing once
(`to_dict (from_dict (to_dict x)) = to_dict x`), for every record `x`
satisfying the construction invariant (a `chain` record always carries a
chain style). -/
theorem c7_serialize_roundtrip (x : JewelryDesign)
    (hx : x.jewelry_type = .chain → x.chain_style ≠ none) :
    (JewelryDesign.from_dict x.to_dict).map JewelryDesign.to_dict =
      some x.to_dict := by
  rw [from_dict_to_dict]
  have hname : x.to_dict.name ≠ "" := by
    show (if x.name ≠ "" then x.name else x.display_name) ≠ ""
    by_cases h : x.name = ""
    · rw [if_neg (not_not_intro h)]
      exact display_name_ne_empty x
    · rw [if_pos h]
      exact h
  have hpost : JewelryDesign.create { x with name := x.to_dict.name } =
      { x with name := x.to_dict.name } := by
    unfold JewelryDesign.create
    exact postInit_eq_self _ hx
  simp only [Option.map_some']
  rw [hpost, to_dict_name_update x x.to_dict.name hname]

def c7WitnessRecord : JewelryDesign :=
  JewelryDesign.create { id := "w7", created_at := "2024-01-01T00:00:00" }

theorem c7_serialize_roundtrip_witness :
    (JewelryDesign.from_dict c7WitnessRecord.to_dict).map
        JewelryDesign.to_dict = some c7WitnessRecord.to_dict :=
  c7_serialize_roundtrip c7WitnessRecord (by decide)

/-- `JewelryDesign._get_material_properties`. -/
def JewelryDesign.material_properties (d : JewelryDesign) : String :=
  match d.material with
  | .gold =>
    "warm yellow gold with accurate metallic luster and reflective properties"
  | .silver =>
    "bright sterling silver with proper white metal sheen and subtle reflection"
  | .stainless_steel =>
    "durable stainless steel with cool gray tone and subtle brushed texture"
  | .gold_plated =>
    "precision gold-plated surface with consistent coverage and warm golden hue"
  | .silver_plated =>
    "precisely silver-plated with consistent layering and bright white metal appearance"
  | .rose_gold =>
    "warm rose gold with distinctive pinkish hue and refined metallic shine"
  | .white_gold =>
    "bright white gold with rhodium-plated finish for brilliant white appearance"
  | .platinum =>
    "premium platinum with distinctive weight and cool white-gray metallic appearance"
  | .brass =>
    "polished brass with warm golden-yellow tone and subtle antiqued detailing"

/-- The per-type `technical_specs` clause of `get_prompt`. -/
def technicalSpecs (jt : JewelryType) : String :=
  match jt with
  | .ring =>
    ", precisely crafted round band with comfortable beveled inner edges, proper sizing proportions"
  | .pendant =>
    ", with securely attached bail for chain threading, balanced weight distribution for proper hanging"
  | .earring =>
    ", with secure ear wire mechanism, properly balanced for comfortable wear"
  | .necklace =>
    ", featuring secure lobster clasp with jump ring, properly graduated links for comfortable draping"
  | .bracelet =>
    ", with secure box clasp and safety chain, ergonomically designed for wrist comfort"
  | .chain =>
    ", uniform link pattern throughout, featuring secure spring ring clasp"

/-- `JewelryDesign.get_prompt`: the pure prompt-assembly function. -/
def JewelryDesign.get_prompt (d : JewelryDesign) : String :=
  let photography_context := "Professional jewelry studio photography of"
  let base_description :=
    "a high-quality " ++ d.material.str ++ " " ++ d.jewelry_type.str
  let chain_details :=
    match d.chain_style with
    | some cs =>
      if d.jewelry_type = .chain ∨ d.jewelry_type = .necklace ∨
          d.jewelry_type = .bracelet then
        " with properly connected " ++ cs.str ++ " style links"
      else ""
    | none => ""
  let craftsmanship :=
    "professionally hand-polished to a mirror finish, showcasing refined craftsmanship with attention to detail"
  let presentation :=
    "displayed on neutral background with studio lighting highlighting fine details, proper depth of field, realistic reflections"
  let technical_requirements :=
    "no floating disconnected elements, all components properly attached, physically accurate for manufacturing"
  photography_context ++ " " ++ base_description ++ chain_details ++
    technicalSpecs d.jewelry_type ++ ", " ++ craftsmanship ++ ", " ++
    d.material_properties ++ ", " ++ presentation ++ ", " ++
    technical_requirements

/-- Whether `pat` is a leading segment of `l` (character lists). -/
def leadsList : List Char → List Char → Bool
  | [], _ => true
  | _ :: _, [] => false
  | a :: as, b :: bs => a = b && leadsList as bs

/-- Whether `pat` occurs contiguously anywhere inside `l`. -/
def subList (pat : List Char) : List Char → Bool
  | [] => leadsList pat []
  | b :: bs => leadsList pat (b :: bs) || subList pat bs

/-- Case-insensitive (ASCII) containment of `pat` in `s`. -/
def containsCI (s pat : String) : Bool :=
  subList (pat.data.map asciiLow) (s.data.map asciiLow)

/-- C8: `get_prompt` is a pure deterministic function of the Design
Record (it is embedded as a plain function of the record), and for every
design with jewelry type `chain`, material `gold`, and chain style
`cuban`, the produced prompt contains the substrings "gold chain" and
"cuban" case-insensitively. -/
theorem c8_prompt_contains_gold_chain_cuban (d : JewelryDesign)
    (hm : d.material = .gold) (hj : d.jewelry_type = .chain)
    (hc : d.chain_style = some .cuban) :
    containsCI d.get_prompt "gold chain" = true ∧
    containsCI d.get_prompt "cuban" = true := by
  unfold containsCI JewelryDesign.get_prompt JewelryDesign.material_properties
  rw [hm, hj, hc]
  constructor <;> decide

theorem c8_prompt_contains_gold_chain_cuban_witness :
    containsCI (JewelryDesign.create {}).get_prompt "gold chain" = true ∧
    containsCI (JewelryDesign.create {}).get_prompt "cuban" = true :=
  c8_prompt_contains_gold_chain_cuban (JewelryDesign.create {})
    (by decide) (by decide) (by decide)

/-- One observed snapshot of a remote text-to-3D task, as returned by
`MeshyAPI.get_text_to_3d_task`: the fields `wait_for_task_completion`
and the orchestrator read. `progress` is `task.get("progress", 0)` (an
absent key is the caller passing `0`); `errMsg` is
`task.get("task_error", {}).get("message")` when present; `elapsed` is
the value of `time.time() - start_time` at this iteration's timeout
check. -/
structure TaskSnapshot where
  status : String := "IN_PROGRESS"
  progress : Int := 0
  errMsg : Option String := none
  modelUrls : List (String × String) := []
  textureUrls : List (List (String × String)) := []
  thumbnailUrl : Option String := none
  elapsed : ℚ := 0
deriving DecidableEq, Repr

/-- The error text picked for a FAILED/CANCELED task: the error payload's
message when present and truthy (non-empty), else `"Task failed"`. -/
def taskFailText (t : TaskSnapshot) : String :=
  match t.errMsg with
  | some m => if m = "" then "Task failed" else m
  | none => "Task failed"

/-- The Python guard `timeout and (time.time() - start_time) > timeout`:
a falsy timeout (`None` or `0`) never triggers. -/
def timeoutHit (timeout : Option ℚ) (elapsed : ℚ) : Bool :=
  match timeout with
  | none => false
  | some v => if v = 0 then false else decide (elapsed > v)

/-- Outcome of the polling loop. `exhausted` is a model artifact: the
finite observation list ended while the real loop would still be
polling. -/
inductive PollResult where
  | succeeded (t : TaskSnapshot)
  | failed (msg : String)
  | timedOut (msg : String)
  | exhausted
deriving DecidableEq, Repr

/-- `MeshyAPI.wait_for_task_completion`, as a function of the sequence of
snapshots the polls observe. The `Int` argument is `last_progress`
(initially `-1`); the result carries the outcome, the list of
`(progress, status)` progress-callback invocations in order, and the
number of polls consumed. -/
def wait_for_task_completion (timeout : Option ℚ) :
    Int → List TaskSnapshot → PollResult × List (Int × String) × Nat
  | _, [] => (.exhausted, [], 0)
  | last, t :: rest =>
    let calls : List (Int × String) :=
      if t.progress ≠ last then [(t.progress, t.status)] else []
    let last' : Int := if t.progress ≠ last then t.progress else last
    if t.status = "SUCCEEDED" then (.succeeded t, calls, 1)
    else if t.status = "FAILED" ∨ t.status = "CANCELED" then
      (.failed ("Task failed with status " ++ t.status ++ ": " ++
        taskFailText t), calls, 1)
    else if timeoutHit timeout t.elapsed then
      (.timedOut ("Task timed out after " ++ toString (timeout.getD 0) ++
        " seconds"), calls, 1)
    else
      let r := wait_for_task_completion timeout last' rest
      (r.1, calls ++ r.2.1, r.2.2 + 1)

/-- Modelled from the spec's words (for comparison with the code):
"invoke `onProgress(progress, status)` only when progress value changed
since last observation" — one emission per poll whose progress differs
from the last reported value. -/
def reportedOnChange : Int → List TaskSnapshot → List (Int × String)
  | _, [] => []
  | last, t :: rest =>
    if t.progress ≠ last then
      (t.progress, t.status) :: reportedOnChange t.progress rest
    else reportedOnChange last rest

lemma wait_calls_eq_reportedOnChange (timeout : Option ℚ)
    (snaps : List TaskSnapshot) (last : Int) :
    (wait_for_task_completion timeout last snaps).2.1 =
      reportedOnChange last
        (snaps.take (wait_for_task_completion timeout last snaps).2.2) := by
  induction snaps generalizing last with
  | nil => rfl
  | cons t rest ih =>
    unfold wait_for_task_completion reportedOnChange
    by_cases hp : t.progress ≠ last <;>
      by_cases h1 : t.status = "SUCCEEDED" <;>
      by_cases h2 : t.status = "FAILED" ∨ t.status = "CANCELED" <;>
      by_cases h3 : timeoutHit timeout t.elapsed <;>
      simp [hp, h1, h2, h3, List.take_succ_cons, ih, reportedOnChange]

lemma reportedOnChange_mem (snaps : List TaskSnapshot) (last : Int)
    (c : Int × String) (hc : c ∈ reportedOnChange last snaps) :
    ∃ t ∈ snaps, c = (t.progress, t.status) := by
  induction snaps generalizing last with
  | nil => simp [reportedOnChange] at hc
  | cons t rest ih =>
    unfold reportedOnChange at hc
    by_cases hp : t.progress ≠ last
    · rw [if_pos hp] at hc
      rcases List.mem_cons.mp hc with h | h
      · exact ⟨t, by simp, h⟩
      · obtain ⟨u, hu, he⟩ := ih _ h
        exact ⟨u, by simp [hu], he⟩
    · rw [if_neg hp] at hc
      obtain ⟨u, hu, he⟩ := ih _ hc
      exact ⟨u, by simp [hu], he⟩

lemma wait_calls_mem (timeout : Option ℚ) (snaps : List TaskSnapshot)
    (last : Int) (c : Int × String)
    (hc : c ∈ (wait_for_task_completion timeout last snaps).2.1) :
    ∃ t ∈ snaps, c = (t.progress, t.status) := by
  rw [wait_calls_eq_reportedOnChange] at hc
  obtain ⟨t, ht, he⟩ := reportedOnChange_mem _ _ _ hc
  exact ⟨t, List.take_subset _ _ ht, he⟩

lemma wait_succeeded_status (timeout : Option ℚ) (snaps : List TaskSnapshot)
    (last : Int) (t : TaskSnapshot)
    (h : (wait_for_task_completion timeout last snaps).1 = .succeeded t) :
    t.status = "SUCCEEDED" ∧ t ∈ snaps := by
  induction snaps generalizing last with
  | nil => simp [wait_for_task_completion] at h
  | cons u rest ih =>
    unfold wait_for_task_completion at h
    by_cases h1 : u.status = "SUCCEEDED" <;>
      by_cases h2 : u.status = "FAILED" ∨ u.status = "CANCELED" <;>
      by_cases h3 : timeoutHit timeout u.elapsed <;>
      simp only [h1, h2, h3, if_true, if_false, ite_true, ite_false] at h
    all_goals first
      | (cases h
         try exact ⟨h1, by simp⟩)
      | (obtain ⟨hs, hm⟩ := ih _ h; exact ⟨hs, by simp [hm]⟩)

lemma wait_failed_msg (timeout : Option ℚ) (snaps : List TaskSnapshot)
    (last : Int) (m : String)
    (h : (wait_for_task_completion timeout last snaps).1 = .failed m) :
    ∃ t ∈ snaps, (t.status = "FAILED" ∨ t.status = "CANCELED") ∧
      m = "Task failed with status " ++ t.status ++ ": " ++ taskFailText t := by
  induction snaps generalizing last with
  | nil => simp [wait_for_task_completion] at h
  | cons u rest ih =>
    unfold wait_for_task_completion at h
    by_cases h1 : u.status = "SUCCEEDED" <;>
      by_cases h2 : u.status = "FAILED" ∨ u.status = "CANCELED" <;>
      by_cases h3 : timeoutHit timeout u.elapsed <;>
      simp only [h1, h2, h3, if_true, if_false, ite_true, ite_false] at h
    all_goals first
      | (cases h
         try exact ⟨u, by simp, h2, rfl⟩)
      | (obtain ⟨t, ht, hs, hm⟩ := ih _ h; exact ⟨t, by simp [ht], hs, hm⟩)

lemma wait_reaches_failure (timeout : Option ℚ) (t : TaskSnapshot)
    (rest : List TaskSnapshot)
    (ht : t.status = "FAILED" ∨ t.status = "CANCELED") :
    ∀ (pre : List TaskSnapshot) (last : Int),
      (∀ u ∈ pre, u.status ≠ "SUCCEEDED" ∧ u.status ≠ "FAILED" ∧
        u.status ≠ "CANCELED" ∧ timeoutHit timeout u.elapsed = false) →
      (wait_for_task_completion timeout last (pre ++ t :: rest)).1 =
        .failed ("Task failed with status " ++ t.status ++ ": " ++
          taskFailText t) := by
  intro pre
  induction pre with
  | nil =>
    intro last _
    have hs : ¬ t.status = "SUCCEEDED" := by
      rcases ht with h | h <;> simp [h]
    rw [List.nil_append]
    unfold wait_for_task_completion
    simp only [if_neg hs, if_pos ht]
  | cons u pre' ih =>
    intro last hpre
    obtain ⟨h1, h2, h3, h4⟩ := hpre u (List.mem_cons_self u pre')
    have hterm : ¬ (u.status = "FAILED" ∨ u.status = "CANCELED") := by
      rintro (h | h)
      exacts [h2 h, h3 h]
    have htm : ¬ (timeoutHit timeout u.elapsed = true) := by
      simp [h4]
    rw [List.cons_append]
    unfold wait_for_task_completion
    simp only [if_neg h1, if_neg hterm, if_neg htm]
    exact ih _ fun v hv => hpre v (List.mem_cons_of_mem u hv)

/-- C1: for every observed snapshot sequence, `wait_for_task_completion`
(a) invokes the progress callback exactly once per poll whose progress
differs from the last reported value — its call list equals the
spec-side `reportedOnChange` over the polled snapshots, so a repeated
value is never re-reported while a backward value still is; (b) returns
a snapshot only when its status is `SUCCEEDED`; (c) a `failed` outcome
carries a `MeshyAPIError` message containing the terminal status and,
when present, the error payload's message (via `taskFailText`); and
(d) conversely, whenever the polls actually reach a `FAILED` or
`CANCELED` snapshot — every earlier snapshot is non-terminal and does
not trip the timeout — the call necessarily terminates with exactly
that error: it cannot skip the failure and later succeed, time out, or
keep polling. -/
theorem c1_wait_for_task_completion_contract (timeout : Option ℚ)
    (snaps : List TaskSnapshot) :
    ((wait_for_task_completion timeout (-1) snaps).2.1 =
      reportedOnChange (-1)
        (snaps.take (wait_for_task_completion timeout (-1) snaps).2.2)) ∧
    (match (wait_for_task_completion timeout (-1) snaps).1 with
      | .succeeded t => t.status = "SUCCEEDED" ∧ t ∈ snaps
      | .failed m => ∃ t ∈ snaps,
          (t.status = "FAILED" ∨ t.status = "CANCELED") ∧
          m = "Task failed with status " ++ t.status ++ ": " ++ taskFailText t
      | .timedOut _ => True
      | .exhausted => True) ∧
    (∀ pre t rest, snaps = pre ++ t :: rest →
      (∀ u ∈ pre, u.status ≠ "SUCCEEDED" ∧ u.status ≠ "FAILED" ∧
        u.status ≠ "CANCELED" ∧ timeoutHit timeout u.elapsed = false) →
      (t.status = "FAILED" ∨ t.status = "CANCELED") →
      (wait_for_task_completion timeout (-1) snaps).1 =
        .failed ("Task failed with status " ++ t.status ++ ": " ++
          taskFailText t)) := by
  refine ⟨wait_calls_eq_reportedOnChange timeout snaps (-1), ?_, ?_⟩
  · cases hres : (wait_for_task_completion timeout (-1) snaps).1 with
    | succeeded t => exact wait_succeeded_status timeout snaps (-1) t hres
    | failed m => exact wait_failed_msg timeout snaps (-1) m hres
    | timedOut m => trivial
    | exhausted => trivial
  · rintro pre t rest rfl hpre ht
    exact wait_reaches_failure timeout t rest ht pre (-1) hpre

lemma wait_zero_timeout_eq_none (snaps : List TaskSnapshot) (last : Int) :
    wait_for_task_completion (some 0) last snaps =
      wait_for_task_completion none last snaps := by
  induction snaps generalizing last with
  | nil => rfl
  | cons t rest ih =>
    unfold wait_for_task_completion
    simp [timeoutHit, ih]

lemma wait_none_never_timedOut (snaps : List TaskSnapshot) (last : Int) :
    ∀ m, (wait_for_task_completion none last snaps).1 ≠ .timedOut m := by
  induction snaps generalizing last with
  | nil => simp [wait_for_task_completion]
  | cons t rest ih =>
    intro m
    unfold wait_for_task_completion
    by_cases h1 : t.status = "SUCCEEDED" <;>
      by_cases h2 : t.status = "FAILED" ∨ t.status = "CANCELED" <;>
      simp [h1, h2, timeoutHit, ih _ m]

/-- C10: a timeout of `0` (like `None`, the falsy values of the Python
parameter) disables the timeout instead of expiring immediately: the
run is identical to a run with no timeout, and in particular the
timed-out error is never raised — polling continues until a terminal
status (or until the observation list ends). -/
theorem c10_zero_timeout_disables_timeout (snaps : List TaskSnapshot) :
    (wait_for_task_completion (some 0) (-1) snaps =
      wait_for_task_completion none (-1) snaps) ∧
    (match (wait_for_task_completion (some 0) (-1) snaps).1 with
      | .timedOut _ => False
      | _ => True) := by
  refine ⟨wait_zero_timeout_eq_none snaps (-1), ?_⟩
  cases hres : (wait_for_task_completion (some 0) (-1) snaps).1 with
  | timedOut m =>
    rw [wait_zero_timeout_eq_none] at hres
    exact wait_none_never_timedOut snaps (-1) m hres
  | succeeded t => trivial
  | failed m => trivial
  | exhausted => trivial

/-- The configuration keys of `utils/config.py` that the generator
reads, already converted to their enum types (the conversion of the
config strings is collaborator code), with the hard defaults of
`load_config`. -/
structure Config where
  default_material : Material := .gold
  default_jewelry_type : JewelryType := .chain
  default_chain_style : ChainStyle := .cuban
  models_dir : String := "output/models"
  metadata_dir : String := "output/metadata"
deriving Repr

/-- Inserting one key into a Python dict: an existing key keeps its
position and gets the new value, a new key is appended. -/
def dictUpsert (d : List (String × String)) (k v : String) :
    List (String × String) :=
  if d.any fun kv => kv.1 = k then
    d.map fun kv => if kv.1 = k then (k, v) else kv
  else d ++ [(k, v)]

/-- A Python dict built by a comprehension over `l` (last write wins,
insertion order preserved). -/
def pyDict (l : List (String × String)) : List (String × String) :=
  l.foldl (fun d kv => dictUpsert d kv.1 kv.2) []

/-- The exceptions that can cross `generate_design`'s boundary:
raw local I/O errors (`OSError` and kin), `MeshyAPIError`, and
`JewelryGenerationError` (which chains its cause). Each carries its
message; `str` is Python's `str(e)`. -/
inductive PyError where
  | osError (msg : String)
  | meshyError (msg : String)
  | generationError (msg : String) (cause : PyError)
deriving DecidableEq, Repr

/-- Python `str(e)` on the modelled exceptions. -/
def PyError.str : PyError → String
  | .osError m => m
  | .meshyError m => m
  | .generationError m _ => m

/-- The wrap-and-re-raise at the end of `generate_design`:
`raise JewelryGenerationError(f"Failed to generate design: {str(e)}") from e`. -/
def wrapGen (e : PyError) : PyError :=
  .generationError ("Failed to generate design: " ++ e.str) e

/-- Outcomes of local filesystem side effects during one
`generate_design` run: the `mkdir` of the design's output directory and
the `save_design_metadata` call. -/
structure LocalFx where
  mkdirResult : Except PyError Unit := .ok ()
  metadataResult : Except PyError Unit := .ok ()

/-- Outcomes of the remote-API side effects during one `generate_design`
run: the two task creations, the snapshot sequences their polling loops
observe, and the asset download. -/
structure ApiFx where
  previewCreate : Except PyError String := .ok "preview-task-id"
  previewPolls : List TaskSnapshot := []
  refineCreate : Except PyError String := .ok "refine-task-id"
  refinePolls : List TaskSnapshot := []
  downloadResult : Except PyError Unit := .ok ()

/-- Outcome of `generate_design`: a returned design, a raised exception,
or `outOfPolls` (model artifact: an observation list ended while a
polling loop was still waiting). -/
inductive GDOutcome where
  | ok (d : JewelryDesign)
  | raise (e : PyError)
  | outOfPolls
deriving DecidableEq, Repr

/-- The Design-Record construction inside `generate_design` /
`generate_batch` when no pre-built design is passed: the `chain_style`
argument expression
`chain_style or (ChainStyle(cfg.default) if jewelry_type in [CHAIN, BRACELET, NECKLACE] or not jewelry_type else None)`. -/
def chainStyleArg (cfg : Config) (jewelry_type? : Option JewelryType)
    (chain_style? : Option ChainStyle) : Option ChainStyle :=
  match chain_style? with
  | some c => some c
  | none =>
    if jewelry_type? = some .chain ∨ jewelry_type? = some .bracelet ∨
        jewelry_type? = some .necklace ∨ jewelry_type? = none then
      some cfg.default_chain_style
    else none

/-- Building the `JewelryDesign` from parameters and config defaults
(`generate_design` lines 101-120, `generate_batch` lines 322-341; the
dataclass constructor then runs `__post_init__`). -/
def buildDesign (cfg : Config) (newId : String) (material? : Option Material)
    (jewelry_type? : Option JewelryType) (chain_style? : Option ChainStyle)
    (batch_id : Option String) : JewelryDesign :=
  JewelryDesign.create
    { id := newId
      material := material?.getD cfg.default_material
      jewelry_type := jewelry_type?.getD cfg.default_jewelry_type
      chain_style := chainStyleArg cfg jewelry_type? chain_style?
      batch_id := batch_id }

/-- The mock placeholder URLs of `generate_design`'s mock branch. -/
def mockModelUrls (designId : String) (formats : List String) :
    List (String × String) :=
  pyDict (formats.map fun fmt =>
    (fmt, "https://mock.example.com/" ++ designId ++ "." ++ fmt))

/-- Outcome of the body of `generate_design`'s `try` block, before the
`except` clause runs: a returned design, an exception about to be
caught, or an exhausted poll-observation list (model artifact). -/
inductive TryOutcome where
  | ok (d : JewelryDesign)
  | exc (e : PyError)
  | outOfPolls
deriving DecidableEq, Repr

/-- The body of `generate_design`'s `try` block (live mode, lines
169-270): create the preview task, poll it with progress remapped to
the first half (`progress // 2`), create the refine task, poll it with
progress remapped to the second half (`50 + progress // 2`), download,
attach the refine task's URLs, persist metadata, and emit the final
`(100, "SUCCEEDED", "complete")` callback; when `wait_for_completion`
is false, stop after preview creation and record the task id. -/
def liveRun (design : JewelryDesign) (wait_for_completion : Bool)
    (timeout : Option ℚ) (metadataResult : Except PyError Unit)
    (api : ApiFx) : TryOutcome × List (Int × String × String) :=
  match api.previewCreate with
  | .error e => (.exc e, [])
  | .ok previewTaskId =>
    if wait_for_completion then
      let pw := wait_for_task_completion timeout (-1) api.previewPolls
      let pcalls := pw.2.1.map fun c => (c.1 / 2, c.2, "preview")
      match pw.1 with
      | .exhausted => (.outOfPolls, pcalls)
      | .failed m => (.exc (.meshyError m), pcalls)
      | .timedOut m => (.exc (.meshyError m), pcalls)
      | .succeeded _ =>
        match api.refineCreate with
        | .error e => (.exc e, pcalls)
        | .ok _ =>
          let rws := wait_for_task_completion timeout (-1) api.refinePolls
          let rcalls := rws.2.1.map fun c => (50 + c.1 / 2, c.2, "refine")
          match rws.1 with
          | .exhausted => (.outOfPolls, pcalls ++ rcalls)
          | .failed m => (.exc (.meshyError m), pcalls ++ rcalls)
          | .timedOut m => (.exc (.meshyError m), pcalls ++ rcalls)
          | .succeeded task =>
            match api.downloadResult with
            | .error e => (.exc e, pcalls ++ rcalls)
            | .ok _ =>
              let d := { design with
                model_urls := task.modelUrls
                texture_urls := task.textureUrls
                thumbnail_url := task.thumbnailUrl }
              match metadataResult with
              | .error e => (.exc e, pcalls ++ rcalls)
              | .ok _ =>
                (.ok d, pcalls ++ rcalls ++ [(100, "SUCCEEDED", "complete")])
    else
      (.ok { design with
         description := "Preview task ID: " ++ previewTaskId }, [])

/-- `MeshyJewelryGenerator.generate_design`, as a function of the
explicit effect outcomes. The returned call list is the sequence of
`progress_callback(progress, status, stage)` invocations. Control flow
mirrors the source: the mock branch and the output-directory `mkdir`
run before the `try` block (their failures propagate unwrapped), while
everything from prompt/preview creation onward is inside the
`try ... except` (`liveRun`), whose exception the `except` clause wraps
via `wrapGen`. -/
def generate_design (cfg : Config) (mock_mode : Bool)
    (design? : Option JewelryDesign) (newId : String)
    (material? : Option Material) (jewelry_type? : Option JewelryType)
    (chain_style? : Option ChainStyle)
    (custom_prompt : Option String) (custom_texture_prompt : Option String)
    (formats? : Option (List String)) (wait_for_completion : Bool)
    (timeout : Option ℚ) (fx : LocalFx) (api : ApiFx) :
    GDOutcome × List (Int × String × String) :=
  let formats := formats?.getD ["glb", "fbx"]
  let design := match design? with
    | some d => d
    | none => buildDesign cfg newId material? jewelry_type? chain_style? none
  if mock_mode then
    match fx.mkdirResult with
    | .error e => (.raise e, [])
    | .ok _ =>
      let d := { design with
        model_urls := mockModelUrls design.id formats
        thumbnail_url :=
          some ("https://mock.example.com/" ++ design.id ++ "_thumbnail.png")
        texture_urls :=
          [[("base_color",
             "https://mock.example.com/" ++ design.id ++ "_texture_0.png"),
            ("normal",
             "https://mock.example.com/" ++ design.id ++
               "_texture_0_normal.png")]] }
      match fx.metadataResult with
      | .error e => (.raise e, [])
      | .ok _ => (.ok d, [(100, "MOCK_COMPLETED", "complete")])
  else
    match fx.mkdirResult with
    | .error e => (.raise e, [])
    | .ok _ =>
      let r := liveRun design wait_for_completion timeout fx.metadataResult api
      match r.1 with
      | .ok d => (.ok d, r.2)
      | .exc e => (.raise (wrapGen e), r.2)
      | .outOfPolls => (.outOfPolls, r.2)

/-- Design-creation loop of `MeshyJewelryGenerator.generate_batch`
(lines 322-342): one design per generated id, all sharing the batch id,
with the same defaulting expression as `generate_design`. -/
def createBatchDesigns (cfg : Config) (ids : List String)
    (material? : Option Material) (jewelry_type? : Option JewelryType)
    (chain_style? : Option ChainStyle) (batch_id : String) :
    List JewelryDesign :=
  ids.map fun i =>
    buildDesign cfg i material? jewelry_type? chain_style? (some batch_id)

/-- Result collection of `MeshyJewelryGenerator.generate_batch` (lines
372-391): futures are consumed in completion order; `future.result()`
either yields the finished design, which is appended to
`completed_designs`, or re-raises the unit's exception, which is caught
(`except Exception`), logged, and the design moved to the failure list.
The function is total in the unit outcomes — no unit exception
propagates. `unitRun` gives each unit's outcome, `completionOrder` the
order in which the futures complete. -/
def generate_batch (unitRun : JewelryDesign → Except PyError JewelryDesign)
    (completionOrder : List JewelryDesign) : List JewelryDesign :=
  completionOrder.foldl
    (fun acc d =>
      match unitRun d with
      | .ok d2 => acc ++ [d2]
      | .error _ => acc) []

/-- C9: when `generate_design` or `generate_batch` builds a new Design
Record with no explicit `chain_style` argument, the record gets the
configured default chain style not only for `chain` but also for
`bracelet` and `necklace`, and also when `jewelry_type` is omitted; only
for `ring`, `earring`, and `pendant` does it stay `none`. -/
theorem c9_chain_style_defaulting_scope (cfg : Config) (newId : String)
    (material? : Option Material) (jewelry_type? : Option JewelryType)
    (batch_id? : Option String) (ids : List String) (bId : String) :
    ((buildDesign cfg newId material? jewelry_type? none batch_id?).chain_style
        =
      match jewelry_type? with
      | some JewelryType.ring => none
      | some JewelryType.earring => none
      | some JewelryType.pendant => none
      | _ => some cfg.default_chain_style) ∧
    (∀ d ∈ createBatchDesigns cfg ids material? jewelry_type? none bId,
      d.chain_style =
        match jewelry_type? with
        | some JewelryType.ring => none
        | some JewelryType.earring => none
        | some JewelryType.pendant => none
        | _ => some cfg.default_chain_style) := by
  have hmain : ∀ i b,
      (buildDesign cfg i material? jewelry_type? none b).chain_style =
        match jewelry_type? with
        | some JewelryType.ring => none
        | some JewelryType.earring => none
        | some JewelryType.pendant => none
        | _ => some cfg.default_chain_style := by
    intro i b
    rcases jewelry_type? with _ | jt
    · simp [buildDesign, chainStyleArg, JewelryDesign.create, postInit]
    · cases jt <;>
        simp [buildDesign, chainStyleArg, JewelryDesign.create, postInit]
  refine ⟨hmain newId batch_id?, ?_⟩
  intro d hd
  obtain ⟨i, _, he⟩ := List.mem_map.mp hd
  rw [← he]
  exact hmain i (some bId)

lemma except_toOption_ok {α ε : Type} (a : α) :
    (Except.ok a : Except ε α).toOption = some a := rfl

lemma except_toOption_error {α ε : Type} (e : ε) :
    (Except.error e : Except ε α).toOption = (none : Option α) := rfl

lemma except_isOk_ok {α ε : Type} (a : α) :
    (Except.ok a : Except ε α).isOk = true := rfl

lemma except_isOk_error {α ε : Type} (e : ε) :
    (Except.error e : Except ε α).isOk = false := rfl

lemma generate_batch_eq_filterMap
    (u : JewelryDesign → Except PyError JewelryDesign)
    (l : List JewelryDesign) :
    generate_batch u l = l.filterMap fun d => (u d).toOption := by
  suffices h : ∀ acc : List JewelryDesign,
      l.foldl (fun acc d =>
        match u d with
        | .ok d2 => acc ++ [d2]
        | .error _ => acc) acc =
      acc ++ l.filterMap fun d => (u d).toOption by
    simpa [generate_batch] using h []
  induction l with
  | nil => simp
  | cons d rest ih =>
    intro acc
    cases hu : u d <;>
      simp [List.foldl_cons, hu, ih, List.filterMap_cons,
        except_toOption_ok, except_toOption_error]

lemma filterMap_toOption_length
    (u : JewelryDesign → Except PyError JewelryDesign)
    (l : List JewelryDesign) :
    (l.filterMap fun d => (u d).toOption).length =
      (l.filter fun d => (u d).isOk).length := by
  induction l with
  | nil => rfl
  | cons d rest ih =>
    cases hu : u d <;>
      simp [List.filterMap_cons, List.filter_cons, hu, ih,
        except_toOption_ok, except_toOption_error, except_isOk_ok,
        except_isOk_error]

lemma filter_isOk_add_not (u : JewelryDesign → Except PyError JewelryDesign)
    (l : List JewelryDesign) :
    (l.filter fun d => (u d).isOk).length +
      (l.filter fun d => !(u d).isOk).length = l.length := by
  induction l with
  | nil => rfl
  | cons d rest ih =>
    cases hu : u d <;>
      simp [List.filter_cons, hu, except_isOk_ok, except_isOk_error] <;>
        omega

/-- C2: for every batch, an exception raised by an individual unit's
generate call is caught inside `generate_batch` (the collection function
is total in the unit outcomes) and the returned list contains exactly
the designs whose generation completed successfully, whatever the
completion order: it is a permutation of the successful results, its
length is the number of successful units, and a batch of 5 submissions
with exactly one failing unit returns a list of length 4. -/
theorem c2_generate_batch_partial_failure
    (unitRun : JewelryDesign → Except PyError JewelryDesign)
    (designs completionOrder : List JewelryDesign)
    (hperm : completionOrder.Perm designs) :
    (generate_batch unitRun completionOrder).Perm
      (designs.filterMap fun d => (unitRun d).toOption) ∧
    (generate_batch unitRun completionOrder).length =
      (completionOrder.filter fun d => (unitRun d).isOk).length ∧
    ((designs.length = 5 ∧
        (designs.filter fun d => !(unitRun d).isOk).length = 1) →
      (generate_batch unitRun completionOrder).length = 4) := by
  have heq := generate_batch_eq_filterMap unitRun completionOrder
  refine ⟨?_, ?_, ?_⟩
  · rw [heq]
    exact hperm.filterMap _
  · rw [heq]
    exact filterMap_toOption_length unitRun completionOrder
  · rintro ⟨h5, h1⟩
    rw [heq, filterMap_toOption_length]
    have hfl := (hperm.filter fun d => (unitRun d).isOk).length_eq
    have hadd := filter_isOk_add_not unitRun designs
    rw [h5, h1] at hadd
    omega

def c2BatchWitnessDesigns : List JewelryDesign :=
  (["1", "2", "3", "4", "5"].map fun i =>
    buildDesign {} i none none none (some "batch_w"))

def c2WitnessUnitRun : JewelryDesign → Except PyError JewelryDesign :=
  fun d => if d.id = "3" then .error (.meshyError "remote call failed")
    else .ok d

theorem c2_generate_batch_partial_failure_witness :
    (generate_batch c2WitnessUnitRun c2BatchWitnessDesigns).Perm
      (c2BatchWitnessDesigns.filterMap fun d =>
        (c2WitnessUnitRun d).toOption) ∧
    (generate_batch c2WitnessUnitRun c2BatchWitnessDesigns).length =
      (c2BatchWitnessDesigns.filter fun d =>
        (c2WitnessUnitRun d).isOk).length ∧
    ((c2BatchWitnessDesigns.length = 5 ∧
        (c2BatchWitnessDesigns.filter fun d =>
          !(c2WitnessUnitRun d).isOk).length = 1) →
      (generate_batch c2WitnessUnitRun c2BatchWitnessDesigns).length = 4) :=
  c2_generate_batch_partial_failure c2WitnessUnitRun
    c2BatchWitnessDesigns c2BatchWitnessDesigns (List.Perm.refl _)

lemma any_key_map_upsert (d : List (String × String)) (k v k2 : String) :
    ((d.map fun kv => if kv.1 = k then (k, v) else kv).any
        fun kv => kv.1 = k2) =
      (d.any fun kv => kv.1 = k2) := by
  induction d with
  | nil => rfl
  | cons a rest ih => by_cases h : a.1 = k <;> simp [h, ih]

lemma dictUpsert_key (d : List (String × String)) (k v k2 : String) :
    ((dictUpsert d k v).any fun kv => kv.1 = k2) =
      ((d.any fun kv => kv.1 = k2) || k = k2) := by
  unfold dictUpsert
  by_cases h : d.any fun kv => kv.1 = k
  · rw [if_pos h, any_key_map_upsert]
    by_cases hk : k = k2
    · subst hk
      simp [h]
    · simp [hk]
  · rw [if_neg h]
    simp

lemma pyDict_key (l : List (String × String)) (k : String) :
    ((pyDict l).any fun kv => kv.1 = k) = (l.any fun kv => kv.1 = k) := by
  suffices h : ∀ acc : List (String × String),
      ((l.foldl (fun d kv => dictUpsert d kv.1 kv.2) acc).any
          fun kv => kv.1 = k) =
        ((acc.any fun kv => kv.1 = k) || l.any fun kv => kv.1 = k) by
    simpa [pyDict] using h []
  induction l with
  | nil => simp
  | cons a rest ih =>
    intro acc
    simp [List.foldl_cons, ih, dictUpsert_key, Bool.or_assoc]

lemma dictUpsert_sub (d : List (String × String)) (k v : String)
    (kv : String × String) (h : kv ∈ dictUpsert d k v) :
    kv ∈ d ∨ kv = (k, v) := by
  unfold dictUpsert at h
  by_cases hc : d.any fun x => x.1 = k
  · rw [if_pos hc] at h
    obtain ⟨a, ha, he⟩ := List.mem_map.mp h
    by_cases hak : a.1 = k
    · right
      rw [← he]
      simp [hak]
    · left
      rw [← he]
      simpa [hak] using ha
  · rw [if_neg hc] at h
    rcases List.mem_append.mp h with h | h
    · left
      exact h
    · right
      simpa using h

lemma foldl_upsert_sub (l : List (String × String)) :
    ∀ (acc : List (String × String)) (kv : String × String),
      kv ∈ l.foldl (fun d x => dictUpsert d x.1 x.2) acc →
        kv ∈ acc ∨ kv ∈ l := by
  induction l with
  | nil =>
    intro acc kv h
    exact Or.inl h
  | cons a rest ih =>
    intro acc kv h
    rcases ih _ kv h with h2 | h2
    · rcases dictUpsert_sub acc a.1 a.2 kv h2 with h3 | h3
      · exact Or.inl h3
      · right
        rw [h3]
        simp
    · right
      simp [h2]

lemma pyDict_sub (l : List (String × String)) (kv : String × String)
    (h : kv ∈ pyDict l) : kv ∈ l := by
  rcases foldl_upsert_sub l [] kv h with h2 | h2
  · simp at h2
  · exact h2

lemma append_ne_empty_left (a b : String) (ha : a.data ≠ []) :
    a ++ b ≠ "" := by
  intro h
  have hd : (a ++ b).data = [] := congrArg String.data h
  rw [String.data_append] at hd
  exact ha (List.append_eq_nil.mp hd).1

lemma mockModelUrls_key (designId : String) (formats : List String)
    (f : String) :
    (((mockModelUrls designId formats).any fun kv => kv.1 = f) = true) ↔
      f ∈ formats := by
  unfold mockModelUrls
  rw [pyDict_key, List.any_eq_true]
  constructor
  · rintro ⟨kv, hkv, he⟩
    obtain ⟨a, ha, hae⟩ := List.mem_map.mp hkv
    have h1 : kv.1 = f := by simpa using he
    rw [← hae] at h1
    simp only at h1
    rwa [← h1]
  · intro hf
    exact ⟨(f, "https://mock.example.com/" ++ designId ++ "." ++ f),
      List.mem_map.mpr ⟨f, hf, rfl⟩, by simp⟩

lemma mockModelUrls_val (designId : String) (formats : List String)
    (kv : String × String) (h : kv ∈ mockModelUrls designId formats) :
    kv.2 ≠ "" := by
  have h2 := pyDict_sub _ _ h
  obtain ⟨a, _, he⟩ := List.mem_map.mp h2
  rw [← he]
  apply append_ne_empty_left
  rw [String.data_append]
  intro hx
  exact absurd (List.append_eq_nil.mp hx).2 (by decide)

/-- C5: in mock mode, `generate_design` performs no network I/O (its
result does not depend on the remote-API effects), and for every
requested format list it returns a design whose `model_urls` keys are
exactly the requested formats, each mapped to a non-empty placeholder
URL, with a non-null `thumbnail_url` and exactly one texture set, and
the progress callback is invoked once with `(100, "MOCK_COMPLETED")`. -/
theorem c5_mock_mode_contract (cfg : Config) (design? : Option JewelryDesign)
    (newId : String) (material? : Option Material)
    (jewelry_type? : Option JewelryType) (chain_style? : Option ChainStyle)
    (custom_prompt custom_texture_prompt : Option String)
    (formats : List String) (wait_for_completion : Bool) (timeout : Option ℚ)
    (api api2 : ApiFx) :
    (generate_design cfg true design? newId material? jewelry_type?
        chain_style? custom_prompt custom_texture_prompt (some formats)
        wait_for_completion timeout {} api =
      generate_design cfg true design? newId material? jewelry_type?
        chain_style? custom_prompt custom_texture_prompt (some formats)
        wait_for_completion timeout {} api2) ∧
    (∃ d, (generate_design cfg true design? newId material? jewelry_type?
        chain_style? custom_prompt custom_texture_prompt (some formats)
        wait_for_completion timeout {} api).1 = .ok d ∧
      (∀ f, ((d.model_urls.any fun kv => kv.1 = f) = true) ↔ f ∈ formats) ∧
      (∀ kv ∈ d.model_urls, kv.2 ≠ "") ∧
      d.thumbnail_url.isSome = true ∧
      d.texture_urls.length = 1 ∧
      (generate_design cfg true design? newId material? jewelry_type?
        chain_style? custom_prompt custom_texture_prompt (some formats)
        wait_for_completion timeout {} api).2 =
        [(100, "MOCK_COMPLETED", "complete")]) := by
  refine ⟨rfl, _, rfl, ?_, ?_, rfl, rfl, rfl⟩
  · intro f
    exact mockModelUrls_key _ formats f
  · intro kv h
    exact mockModelUrls_val _ formats kv h

/-- Whether an outcome is a raised `JewelryGenerationError`. -/
def raisesGenerationError : GDOutcome → Bool
  | .raise (.generationError _ _) => true
  | _ => false

/-- A mock-mode run whose `save_design_metadata` call fails with a raw
OS error ("disk full"). -/
def c3CounterexampleRun : GDOutcome × List (Int × String × String) :=
  generate_design {} true none "design-1" none none none none none none
    true none { metadataResult := .error (.osError "disk full") } {}

/-- C3 counterexample: the mock path's metadata-persistence failure
escapes `generate_design` as the raw original exception, not as a
`JewelryGenerationError` — the mock branch (and the output-directory
`mkdir`) runs before the `try` block, so the claim that every failure
is wrapped is false on the code. -/
theorem c3_mock_io_error_escapes_unwrapped :
    c3CounterexampleRun.1 = .raise (.osError "disk full") ∧
    raisesGenerationError c3CounterexampleRun.1 = false :=
  ⟨rfl, rfl⟩

lemma generate_design_live_eq (cfg : Config) (design : JewelryDesign)
    (newId : String) (material? : Option Material)
    (jewelry_type? : Option JewelryType) (chain_style? : Option ChainStyle)
    (cp ctp : Option String) (formats? : Option (List String)) (wait : Bool)
    (timeout : Option ℚ) (md : Except PyError Unit) (api : ApiFx) :
    generate_design cfg false (some design) newId material? jewelry_type?
        chain_style? cp ctp formats? wait timeout { metadataResult := md }
        api =
      (match (liveRun design wait timeout md api).1 with
        | .ok d => GDOutcome.ok d
        | .exc e => .raise (wrapGen e)
        | .outOfPolls => .outOfPolls,
       (liveRun design wait timeout md api).2) := by
  unfold generate_design
  cases hl : (liveRun design wait timeout md api).1 <;> simp [hl]

/-- C3 amended: failures raised inside `generate_design`'s `try` block —
remote-API failures of preview/refine creation, polling failures,
download failures, and the live path's metadata persistence — are
wrapped and re-raised as a single `JewelryGenerationError` whose
message is built from, and which chains, the original cause: every
exception the try-block body (`liveRun`) raises makes `generate_design`
raise exactly its wrap (never return a design or raise anything else),
e.g. a failing preview-creation call raising `e` yields
`raise (wrapGen e)`; and nothing else ever escapes as a raw error from
the try region (the match conjunct). But the mock path's own I/O errors
(directory creation, metadata persistence) and the live path's
output-directory creation error propagate unwrapped as the original
exception. -/
theorem c3_wrapping_limited_to_try_block (cfg : Config)
    (design : JewelryDesign) (newId : String) (material? : Option Material)
    (jewelry_type? : Option JewelryType) (chain_style? : Option ChainStyle)
    (cp ctp : Option String) (formats? : Option (List String)) (wait : Bool)
    (timeout : Option ℚ) (md : Except PyError Unit) (e0 : PyError)
    (api : ApiFx) :
    (match (generate_design cfg false (some design) newId material?
        jewelry_type? chain_style? cp ctp formats? wait timeout
        { metadataResult := md } api).1 with
      | GDOutcome.raise (PyError.generationError m c) =>
          m = "Failed to generate design: " ++ c.str
      | GDOutcome.raise (PyError.osError _) => False
      | GDOutcome.raise (PyError.meshyError _) => False
      | _ => True) ∧
    ((generate_design cfg false (some design) newId material? jewelry_type?
        chain_style? cp ctp formats? wait timeout
        { mkdirResult := .error e0, metadataResult := md } api).1 =
      .raise e0) ∧
    ((generate_design cfg true (some design) newId material? jewelry_type?
        chain_style? cp ctp formats? wait timeout
        { mkdirResult := .error e0, metadataResult := md } api).1 =
      .raise e0) ∧
    ((generate_design cfg true (some design) newId material? jewelry_type?
        chain_style? cp ctp formats? wait timeout
        { mkdirResult := .ok (), metadataResult := .error e0 } api).1 =
      .raise e0) ∧
    (∀ e, (liveRun design wait timeout md api).1 = .exc e →
      (generate_design cfg false (some design) newId material? jewelry_type?
        chain_style? cp ctp formats? wait timeout { metadataResult := md }
        api).1 = .raise (wrapGen e)) ∧
    ((generate_design cfg false (some design) newId material? jewelry_type?
        chain_style? cp ctp formats? wait timeout { metadataResult := md }
        { api with previewCreate := .error e0 }).1 =
      .raise (wrapGen e0)) := by
  refine ⟨?_, rfl, rfl, rfl, ?_, ?_⟩
  · rw [generate_design_live_eq]
    cases hl : (liveRun design wait timeout md api).1 with
    | ok d => simp
    | exc e => simp [wrapGen]
    | outOfPolls => simp
  · intro e he
    rw [generate_design_live_eq]
    simp only [he]
  · rw [generate_design_live_eq]
    simp [liveRun]

lemma mem_preview_calls (timeout : Option ℚ) (polls : List TaskSnapshot)
    (c : Int × String × String)
    (hc : c ∈ (wait_for_task_completion timeout (-1) polls).2.1.map
      fun q => (q.1 / 2, q.2, ("preview" : String))) :
    ∃ t ∈ polls, c = (t.progress / 2, t.status, "preview") := by
  obtain ⟨q, hq, he⟩ := List.mem_map.mp hc
  obtain ⟨t, ht, he2⟩ := wait_calls_mem timeout polls (-1) q hq
  refine ⟨t, ht, ?_⟩
  rw [← he, he2]

lemma mem_refine_calls (timeout : Option ℚ) (polls : List TaskSnapshot)
    (c : Int × String × String)
    (hc : c ∈ (wait_for_task_completion timeout (-1) polls).2.1.map
      fun q => (50 + q.1 / 2, q.2, ("refine" : String))) :
    ∃ t ∈ polls, c = (50 + t.progress / 2, t.status, "refine") := by
  obtain ⟨q, hq, he⟩ := List.mem_map.mp hc
  obtain ⟨t, ht, he2⟩ := wait_calls_mem timeout polls (-1) q hq
  refine ⟨t, ht, ?_⟩
  rw [← he, he2]

lemma liveRun_calls_shape (design : JewelryDesign) (timeout : Option ℚ)
    (md : Except PyError Unit) (api : ApiFx) (c : Int × String × String)
    (hc : c ∈ (liveRun design true timeout md api).2) :
    (∃ t ∈ api.previewPolls, c = (t.progress / 2, t.status, "preview")) ∨
    (∃ t ∈ api.refinePolls, c = (50 + t.progress / 2, t.status, "refine")) ∨
    c = (100, "SUCCEEDED", "complete") := by
  unfold liveRun at hc
  cases hpc : api.previewCreate with
  | error e =>
    simp only [hpc] at hc
    simp at hc
  | ok pid =>
    simp only [hpc, reduceIte] at hc
    cases hpw : (wait_for_task_completion timeout (-1) api.previewPolls).1 with
    | exhausted =>
      simp only [hpw] at hc
      exact Or.inl (mem_preview_calls timeout api.previewPolls c hc)
    | failed m =>
      simp only [hpw] at hc
      exact Or.inl (mem_preview_calls timeout api.previewPolls c hc)
    | timedOut m =>
      simp only [hpw] at hc
      exact Or.inl (mem_preview_calls timeout api.previewPolls c hc)
    | succeeded t0 =>
      simp only [hpw] at hc
      cases hrc : api.refineCreate with
      | error e =>
        simp only [hrc] at hc
        exact Or.inl (mem_preview_calls timeout api.previewPolls c hc)
      | ok rid =>
        simp only [hrc] at hc
        have hsplit2 :
            c ∈ (wait_for_task_completion timeout (-1)
                api.previewPolls).2.1.map
                (fun q => (q.1 / 2, q.2, ("preview" : String))) ∨
            c ∈ (wait_for_task_completion timeout (-1)
                api.refinePolls).2.1.map
                (fun q => (50 + q.1 / 2, q.2, ("refine" : String))) ∨
            c = (100, "SUCCEEDED", "complete") := by
          cases hrw :
              (wait_for_task_completion timeout (-1) api.refinePolls).1 with
          | exhausted =>
            simp only [hrw] at hc
            rcases List.mem_append.mp hc with h | h
            · exact Or.inl h
            · exact Or.inr (Or.inl h)
          | failed m =>
            simp only [hrw] at hc
            rcases List.mem_append.mp hc with h | h
            · exact Or.inl h
            · exact Or.inr (Or.inl h)
          | timedOut m =>
            simp only [hrw] at hc
            rcases List.mem_append.mp hc with h | h
            · exact Or.inl h
            · exact Or.inr (Or.inl h)
          | succeeded task =>
            simp only [hrw] at hc
            cases hdl : api.downloadResult with
            | error e =>
              simp only [hdl] at hc
              rcases List.mem_append.mp hc with h | h
              · exact Or.inl h
              · exact Or.inr (Or.inl h)
            | ok u =>
              simp only [hdl] at hc
              cases hmd : md with
              | error e =>
                simp only [hmd] at hc
                rcases List.mem_append.mp hc with h | h
                · exact Or.inl h
                · exact Or.inr (Or.inl h)
              | ok u2 =>
                simp only [hmd] at hc
                rcases List.mem_append.mp hc with h | h
                · rcases List.mem_append.mp h with h2 | h2
                  · exact Or.inl h2
                  · exact Or.inr (Or.inl h2)
                · right
                  right
                  simpa using h
        rcases hsplit2 with h | h | h
        · exact Or.inl (mem_preview_calls timeout api.previewPolls c h)
        · exact Or.inr (Or.inl (mem_refine_calls timeout api.refinePolls c h))
        · exact Or.inr (Or.inr h)

lemma liveRun_ok_last (design : JewelryDesign) (timeout : Option ℚ)
    (md : Except PyError Unit) (api : ApiFx) (d : JewelryDesign)
    (h : (liveRun design true timeout md api).1 = .ok d) :
    (liveRun design true timeout md api).2.getLast? =
      some (100, "SUCCEEDED", "complete") := by
  unfold liveRun at h ⊢
  cases hpc : api.previewCreate with
  | error e =>
    simp only [hpc] at h
    cases h
  | ok pid =>
    simp only [hpc, reduceIte] at h ⊢
    cases hpw : (wait_for_task_completion timeout (-1) api.previewPolls).1 with
    | exhausted =>
      simp only [hpw] at h
      cases h
    | failed m =>
      simp only [hpw] at h
      cases h
    | timedOut m =>
      simp only [hpw] at h
      cases h
    | succeeded t0 =>
      simp only [hpw] at h ⊢
      cases hrc : api.refineCreate with
      | error e =>
        simp only [hrc] at h
        cases h
      | ok rid =>
        simp only [hrc] at h ⊢
        cases hrw :
            (wait_for_task_completion timeout (-1) api.refinePolls).1 with
        | exhausted =>
          simp only [hrw] at h
          cases h
        | failed m =>
          simp only [hrw] at h
          cases h
        | timedOut m =>
          simp only [hrw] at h
          cases h
        | succeeded task =>
          simp only [hrw] at h ⊢
          cases hdl : api.downloadResult with
          | error e =>
            simp only [hdl] at h
            cases h
          | ok u =>
            simp only [hdl] at h ⊢
            cases hmd : md with
            | error e =>
              simp only [hmd] at h
              cases h
            | ok u2 =>
              simp only [hmd] at h ⊢
              simp [List.getLast?_concat]

/-- C4: in the live waiting path, every preview-phase callback reports
`p / 2` (integer floor division, as in the source's `progress // 2`) for
some observed remote preview progress `p`, hence a value in 0-50; every
refine-phase callback reports `50 + p / 2` for some observed remote
refine progress `p`, hence a value in 50-100; and when the run returns
a design, the final callback invocation is `(100, "SUCCEEDED")`. -/
theorem c4_progress_remapping (cfg : Config) (design : JewelryDesign)
    (newId : String) (material? : Option Material)
    (jewelry_type? : Option JewelryType) (chain_style? : Option ChainStyle)
    (cp ctp : Option String) (formats? : Option (List String))
    (timeout : Option ℚ) (md : Except PyError Unit) (api : ApiFx)
    (hp : ∀ t ∈ api.previewPolls, 0 ≤ t.progress ∧ t.progress ≤ 100)
    (hr : ∀ t ∈ api.refinePolls, 0 ≤ t.progress ∧ t.progress ≤ 100) :
    (∀ c ∈ (generate_design cfg false (some design) newId material?
        jewelry_type? chain_style? cp ctp formats? true timeout
        { metadataResult := md } api).2,
      (c.2.2 = "preview" →
        (∃ t ∈ api.previewPolls, c.1 = t.progress / 2 ∧ c.2.1 = t.status) ∧
        0 ≤ c.1 ∧ c.1 ≤ 50) ∧
      (c.2.2 = "refine" →
        (∃ t ∈ api.refinePolls,
          c.1 = 50 + t.progress / 2 ∧ c.2.1 = t.status) ∧
        50 ≤ c.1 ∧ c.1 ≤ 100)) ∧
    (∀ d, (generate_design cfg false (some design) newId material?
        jewelry_type? chain_style? cp ctp formats? true timeout
        { metadataResult := md } api).1 = GDOutcome.ok d →
      (generate_design cfg false (some design) newId material? jewelry_type?
        chain_style? cp ctp formats? true timeout { metadataResult := md }
        api).2.getLast? = some (100, "SUCCEEDED", "complete")) := by
  have hcalls : (generate_design cfg false (some design) newId material?
      jewelry_type? chain_style? cp ctp formats? true timeout
      { metadataResult := md } api).2 =
      (liveRun design true timeout md api).2 := by
    rw [generate_design_live_eq]
  constructor
  · intro c hc
    rw [hcalls] at hc
    rcases liveRun_calls_shape design timeout md api c hc with
      ⟨t, ht, he⟩ | ⟨t, ht, he⟩ | he
    · have h1 : c.1 = t.progress / 2 := by rw [he]
      have h21 : c.2.1 = t.status := by rw [he]
      have h22 : c.2.2 = "preview" := by rw [he]
      obtain ⟨h0, h100⟩ := hp t ht
      refine ⟨fun _ => ⟨⟨t, ht, h1, h21⟩, by omega, by omega⟩,
        fun hbad => absurd (h22.symm.trans hbad) (by decide)⟩
    · have h1 : c.1 = 50 + t.progress / 2 := by rw [he]
      have h21 : c.2.1 = t.status := by rw [he]
      have h22 : c.2.2 = "refine" := by rw [he]
      obtain ⟨h0, h100⟩ := hr t ht
      refine ⟨fun hbad => absurd (h22.symm.trans hbad) (by decide),
        fun _ => ⟨⟨t, ht, h1, h21⟩, by omega, by omega⟩⟩
    · have h22 : c.2.2 = "complete" := by rw [he]
      exact ⟨fun hbad => absurd (h22.symm.trans hbad) (by decide),
        fun hbad => absurd (h22.symm.trans hbad) (by decide)⟩
  · intro d hok
    rw [generate_design_live_eq] at hok
    rw [hcalls]
    cases hl : (liveRun design true timeout md api).1 with
    | ok d2 =>
      simp only [hl] at hok
      cases hok
      exact liveRun_ok_last design timeout md api _ hl
    | exc e =>
      simp only [hl] at hok
      cases hok
    | outOfPolls =>
      simp only [hl] at hok
      cases hok

def c4WitnessApi : ApiFx :=
  { previewPolls := [{ status := "IN_PROGRESS", progress := 37 },
      { status := "SUCCEEDED", progress := 100 }]
    refinePolls := [{ status := "IN_PROGRESS", progress := 11 },
      { status := "SUCCEEDED", progress := 99 }] }

theorem c4_progress_remapping_witness :
    (∀ c ∈ (generate_design {} false (some { id := "w4" }) "w4" none none
        none none none none true none { metadataResult := Except.ok () }
        c4WitnessApi).2,
      (c.2.2 = "preview" →
        (∃ t ∈ c4WitnessApi.previewPolls,
          c.1 = t.progress / 2 ∧ c.2.1 = t.status) ∧
        0 ≤ c.1 ∧ c.1 ≤ 50) ∧
      (c.2.2 = "refine" →
        (∃ t ∈ c4WitnessApi.refinePolls,
          c.1 = 50 + t.progress / 2 ∧ c.2.1 = t.status) ∧
        50 ≤ c.1 ∧ c.1 ≤ 100)) ∧
    (∀ d, (generate_design {} false (some { id := "w4" }) "w4" none none
        none none none none true none { metadataResult := Except.ok () }
        c4WitnessApi).1 = GDOutcome.ok d →
      (generate_design {} false (some { id := "w4" }) "w4" none none none
        none none none true none { metadataResult := Except.ok () }
        c4WitnessApi).2.getLast? = some (100, "SUCCEEDED", "complete")) :=
  c4_progress_remapping {} { id := "w4" } "w4" none none none none none
    none none (Except.ok ()) c4WitnessApi (by decide) (by decide)
